import Mathlib

/-!
Shallow embedding of the SmartTodoAI task backend (Django app `tasks`).

The embedding follows the source files `tasks/ai_module.py`, `tasks/views.py`,
`tasks/serializers.py` and `tasks/models.py`.  Python strings are modelled as
`String` but every operation works structurally on the underlying character
list so that concrete instances reduce inside the kernel.  Python `float`
values that the program manipulates (priority scores, sentiment scores) are
modelled as exact rationals: every score the program produces is a short
decimal literal, so the binary-float rounding of CPython never shows up in
the properties considered here.  `datetime` values are modelled as integer
tick counts; `timedelta(days = d)` adds `1440 * d` ticks (minutes).  The
external completion service is modelled by the value `_call_ai_api` produces:
`none` for every failure (no key, network error, timeout, non-2xx status) and
`some reply` for a 2xx response with body `reply`, exactly the two outcomes
the callers can observe (ai_module.py:194-224).
-/

namespace SmartTodo

/-! ## Python string primitives, modelled on character lists -/

/-- Python `str.lower` (ASCII case folding, which is all the source uses). -/
def lowerL (cs : List Char) : List Char := cs.map Char.toLower

/-- Python `str.strip`: remove whitespace from both ends. -/
def stripL (cs : List Char) : List Char :=
  ((cs.dropWhile Char.isWhitespace).reverse.dropWhile Char.isWhitespace).reverse

/-- Python `needle in hay` on strings: substring containment. -/
def strContainsL (needle : List Char) : List Char → Bool
  | [] => needle.isEmpty
  | c :: t => needle.isPrefixOf (c :: t) || strContainsL needle t

/-- Substring test on `String`, argument order `hay needle` as in `needle in hay`. -/
def strContains (hay needle : String) : Bool := strContainsL needle.toList hay.toList

/-! ## Urgency lexicons (ai_module.py:231 and ai_module.py:245)

The two fallback routines use two different word lists: the priority fallback
has eight words, the context-analysis fallback omits `"emergency"`. -/

/-- Lexicon of `_fallback_priority_calculation` (ai_module.py:245). -/
def urgencyWordsPriority : List String :=
  ["urgent", "asap", "immediately", "deadline", "due", "important", "critical", "emergency"]

/-- Lexicon of `_fallback_context_analysis` (ai_module.py:231); `"emergency"` is absent. -/
def urgencyWordsContext : List String :=
  ["urgent", "asap", "immediately", "deadline", "due", "important", "critical"]

/-! ## Priority fallback (`_fallback_priority_calculation`, ai_module.py:243-254) -/

/-- Number of lexicon words occurring as substrings of `f"{title} {description}".lower()`. -/
def urgencyCount (title description : String) : Nat :=
  let text := lowerL (title.toList ++ [' '] ++ description.toList)
  (urgencyWordsPriority.filter (fun w => strContainsL w.toList text)).length

/-- Map from the urgency count to the score, as in ai_module.py:249-254.
Scores are written with `mkRat` so that they evaluate inside the kernel. -/
def priorityOfCount (c : Nat) : ℚ :=
  if c ≥ 2 then mkRat 9 10 else if c = 1 then mkRat 7 10 else mkRat 1 2

/-- The fallback priority heuristic `_fallback_priority_calculation`. -/
def fallbackPriorityCalculation (title description : String) : ℚ :=
  priorityOfCount (urgencyCount title description)

/-! ## Categorization fallback (`_fallback_categorization`, ai_module.py:262-275) -/

def workWords : List String := ["work", "job", "office", "meeting", "project"]

def homeWords : List String := ["home", "house", "clean", "cook", "garden"]

def healthWords : List String := ["health", "exercise", "gym", "doctor", "medical"]

def learnWords : List String := ["learn", "study", "course", "book", "read"]

/-- Python `any(word in text for word in ws)`. -/
def anyWordIn (ws : List String) (text : List Char) : Bool :=
  ws.any (fun w => strContainsL w.toList text)

/-- The fallback categorization `_fallback_categorization`: ordered keyword buckets
over the lowercased title, first match wins. -/
def fallbackCategorization (title : String) : String × List String :=
  let tl := lowerL title.toList
  if anyWordIn workWords tl then ("Work", ["work", "professional"])
  else if anyWordIn homeWords tl then ("Home", ["home", "household"])
  else if anyWordIn healthWords tl then ("Health", ["health", "wellness"])
  else if anyWordIn learnWords tl then ("Learning", ["learning", "education"])
  else ("Personal", ["personal", "general"])

/-! ## Deadline fallback (`_fallback_deadline_suggestion`, ai_module.py:256-260) -/

/-- Ticks per day: times are minute counts. -/
def minutesPerDay : ℤ := 1440

/-- The fallback deadline `timezone.now() + timedelta(days = min(workload + 1, 7))`. -/
def fallbackDeadlineSuggestion (now : ℤ) (workload : ℕ) : ℤ :=
  now + minutesPerDay * (min (workload + 1) 7 : ℕ)

/-! ## Context-analysis fallback (`_fallback_context_analysis`, ai_module.py:226-241) -/

/-- Python regex `\w`: ASCII word character (the contents are ASCII text). -/
def isWordChar (c : Char) : Bool := c.isAlphanum || c = '_'

/-- Helper for `wordRuns`: `cur` is the current run, reversed. -/
def wordRunsAux (cur : List Char) : List Char → List (List Char)
  | [] => if cur.isEmpty then [] else [cur.reverse]
  | c :: t =>
    if isWordChar c then wordRunsAux (c :: cur) t
    else if cur.isEmpty then wordRunsAux [] t
    else cur.reverse :: wordRunsAux [] t

/-- Maximal runs of word characters, so that `re.findall(r'\b\w{4,}\b', text)` is
the sublist of runs of length at least 4. -/
def wordRuns (cs : List Char) : List (List Char) := wordRunsAux [] cs

/-- Stop words dropped by the fallback analysis (ai_module.py:229). -/
def stopWords : List String :=
  ["this", "that", "with", "from", "they", "have", "will", "been", "were"]

/-- The keyword list of the fallback analysis: words of length at least 4 of the
lowercased content, stop words removed (ai_module.py:228-229). -/
def contextKeywords (content : String) : List String :=
  ((((wordRuns (lowerL content.toList)).filter (fun r => 4 ≤ r.length)).map
      (fun r => String.mk r)).filter (fun k => !(stopWords.contains k)))

/-- Result bundle of `analyze_context` in its fallback shape (ai_module.py:234-241). -/
structure Insights where
  topics : List String
  deadlines : List String
  priorities : List String
  sentiment : String
  action_items : List String
  keywords : List String
deriving DecidableEq

/-- The fallback context analysis `_fallback_context_analysis`. -/
def fallbackContextAnalysis (content : String) : Insights :=
  let kws := contextKeywords content
  let urgency :=
    (urgencyWordsContext.filter (fun w => strContainsL w.toList (lowerL content.toList))).length
  { topics := kws.take 5
    deadlines := []
    priorities := [if 0 < urgency then "high" else "normal"]
    sentiment := "neutral"
    action_items := []
    keywords := kws.take 10 }

/-! ## Task model (models.py:47-82) and status operations -/

inductive TaskStatus where
  | pending
  | in_progress
  | completed
  | cancelled
deriving DecidableEq

/-- The Task row fields the verified operations touch (models.py:47-76).
`priority` stays a plain label string; times are integer ticks. -/
structure Task where
  title : String
  description : Option String
  status : TaskStatus
  priority : String
  priority_score : ℚ
  due_date : Option ℤ
  suggested_deadline : Option ℤ
  tags : List String
  completed_at : Option ℤ
  updated_at : ℤ
deriving DecidableEq

/-- The `toggle_status` action (views.py:37-47): flip `pending` and `completed`,
leave any other status alone, then `task.save()`, which refreshes the
`auto_now` field `updated_at` and nothing else.  Note that the action never
assigns `completed_at`. -/
def toggle_status (now : ℤ) (t : Task) : Task :=
  let t1 :=
    if t.status = TaskStatus.pending then { t with status := TaskStatus.completed }
    else if t.status = TaskStatus.completed then { t with status := TaskStatus.pending }
    else t
  { t1 with updated_at := now }

/-- The `TaskSerializer.update` completed-at logic (serializers.py:65-75), applied
to a validated payload that may carry a status change: a change to `completed`
stamps `completed_at`, a change to any other status clears it. -/
def serializer_update (now : ℤ) (t : Task) (newStatus : Option TaskStatus) : Task :=
  let t1 :=
    match newStatus with
    | some TaskStatus.completed =>
        { t with status := TaskStatus.completed, completed_at := some now }
    | some s => { t with status := s, completed_at := none }
    | none => t
  { t1 with updated_at := now }

/-- The data-model invariant claimed by the specification: `completed_at` is set
exactly when the status is `completed`. -/
def completedAtInvariant (t : Task) : Prop :=
  t.completed_at.isSome ↔ t.status = TaskStatus.completed

/-- A pending task with no completion timestamp, as created by
`TaskCreateSerializer` (status defaults to `pending`, `completed_at` to null). -/
def pendingTaskExample : Task :=
  { title := "write report"
    description := none
    status := TaskStatus.pending
    priority := "medium"
    priority_score := mkRat 1 2
    due_date := none
    suggested_deadline := none
    tags := []
    completed_at := none
    updated_at := 0 }

/-! ## Numeric and date parsing

`float(s)` and `datetime.strptime(s, "%Y-%m-%d %H:%M")` are the two places the
program interprets a service reply as data.  Both are modelled executably; the
float model covers sign, integer/fraction digits and a decimal exponent (the
special spellings `inf`/`nan` and digit underscores accepted by CPython are not
modelled — replies using them simply count as unparseable here). -/

/-- Numeric value of a digit list, most significant first. -/
def natOfDigits (cs : List Char) : Nat :=
  cs.foldl (fun n c => 10 * n + (c.toNat - 48)) 0

/-- Split a leading run of decimal digits. -/
def takeDigits (cs : List Char) : List Char × List Char :=
  (cs.takeWhile Char.isDigit, cs.dropWhile Char.isDigit)

/-- Exact value of a decimal literal: sign, integer digits `ip`, fraction
digits `fp`, exponent `e` with sign `pos`.  Built as a single `mkRat` so the
kernel can evaluate it. -/
def floatVal (neg : Bool) (ip fp : List Char) (pos : Bool) (e : Nat) : ℚ :=
  let m : ℤ := Int.ofNat (natOfDigits (ip ++ fp))
  let m := if neg then -m else m
  if pos then mkRat (m * Int.ofNat (10 ^ e)) (10 ^ fp.length)
  else mkRat m (10 ^ fp.length * 10 ^ e)

/-- Parse the optional exponent part of a float literal, returning its sign and
magnitude.  The whole remainder must be consumed. -/
def parseFloatExp : List Char → Option (Bool × Nat)
  | [] => some (true, 0)
  | e :: r =>
    if e = 'e' ∨ e = 'E' then
      let (pos, r1) :=
        match r with
        | '+' :: t => (true, t)
        | '-' :: t => (false, t)
        | t => (true, t)
      let (ds, rest) := takeDigits r1
      if ds.isEmpty ∨ ¬ rest.isEmpty then none
      else some (pos, natOfDigits ds)
    else none

/-- Parse an unsigned float literal body: `digits [. digits] [exp]`,
`. digits [exp]` or `digits . [exp]`, as accepted by CPython `float`. -/
def parseFloatCore (neg : Bool) (cs : List Char) : Option ℚ :=
  let (ip, r1) := takeDigits cs
  match r1 with
  | '.' :: r2 =>
    let (fp, r3) := takeDigits r2
    if ip.isEmpty ∧ fp.isEmpty then none
    else (parseFloatExp r3).map (fun pe => floatVal neg ip fp pe.1 pe.2)
  | _ =>
    if ip.isEmpty then none
    else (parseFloatExp r1).map (fun pe => floatVal neg ip [] pe.1 pe.2)

/-- Python `float(s)`: strip whitespace, optional sign, then the literal body. -/
def pyFloat (s : String) : Option ℚ :=
  match stripL s.toList with
  | '+' :: r => parseFloatCore false r
  | '-' :: r => parseFloatCore true r
  | r => parseFloatCore false r

/-- Calendar month lengths, as validated by `datetime`. -/
def daysInMonth (y m : Nat) : Nat :=
  if m = 2 then (if (y % 4 = 0 ∧ y % 100 ≠ 0) ∨ y % 400 = 0 then 29 else 28)
  else if m = 4 ∨ m = 6 ∨ m = 9 ∨ m = 11 then 30 else 31

/-- A parsed wall-clock datetime. -/
structure PDateTime where
  year : Nat
  month : Nat
  day : Nat
  hour : Nat
  minute : Nat
deriving DecidableEq

/-- Digit value of a character. -/
def digitVal (c : Char) : Nat := c.toNat - 48

/-- Read one or two digits, as the `strptime` field patterns for
`%m`/`%d`/`%H`/`%M` do (values are range-checked afterwards). -/
def takeUpTo2Digits : List Char → Option (Nat × List Char)
  | [] => none
  | [c] => if c.isDigit then some (digitVal c, []) else none
  | c1 :: c2 :: r =>
    if c1.isDigit then
      if c2.isDigit then some (digitVal c1 * 10 + digitVal c2, r)
      else some (digitVal c1, c2 :: r)
    else none

/-- Python `datetime.strptime(s, "%Y-%m-%d %H:%M")`: four year digits, then
dash-separated month and day, a space, and colon-separated hour and minute;
the whole string must match and all fields must be in calendar range
(`ValueError` is modelled as `none`). -/
def strptimeYmdHM (s : String) : Option PDateTime :=
  match s.toList with
  | y1 :: y2 :: y3 :: y4 :: '-' :: r1 =>
    if y1.isDigit ∧ y2.isDigit ∧ y3.isDigit ∧ y4.isDigit then
      let y := natOfDigits [y1, y2, y3, y4]
      match takeUpTo2Digits r1 with
      | some (m, '-' :: r2) =>
        match takeUpTo2Digits r2 with
        | some (d, ' ' :: r3) =>
          match takeUpTo2Digits r3 with
          | some (h, ':' :: r4) =>
            match takeUpTo2Digits r4 with
            | some (mi, []) =>
              if 1 ≤ y ∧ 1 ≤ m ∧ m ≤ 12 ∧ 1 ≤ d ∧ d ≤ daysInMonth y m ∧ h ≤ 23 ∧ mi ≤ 59
              then some ⟨y, m, d, h, mi⟩
              else none
            | _ => none
          | _ => none
        | _ => none
      | _ => none
    else none
  | _ => none

/-- Tick count of a parsed datetime.  The encoding is injective; no verified
property compares a parsed deadline with anything numerically, only with
`none`/`some`, so the exact calendar arithmetic is immaterial. -/
def dtMinutes (d : PDateTime) : ℤ :=
  Int.ofNat ((((d.year * 12 + d.month) * 31 + d.day) * 24 + d.hour) * 60 + d.minute)

/-! ## The suggestion operations of `AITaskManager`

Each operation takes the service outcome (`none` = unavailable, `some r` =
reply body `r`) as its first argument and is otherwise a function of the task
fields, mirroring the `try`/`except` structure of the source. -/

/-- `prioritize_task` (ai_module.py:57-93): a truthy reply is parsed with
`float`; `None`, an empty reply, or a `ValueError` all fall back to
`_fallback_priority_calculation`. -/
def prioritize_task (reply : Option String) (title description : String) : ℚ :=
  match reply with
  | none => fallbackPriorityCalculation title description
  | some r =>
    if r.toList = [] then fallbackPriorityCalculation title description
    else
      match pyFloat (String.mk (stripL r.toList)) with
      | some x => x
      | none => fallbackPriorityCalculation title description

/-- `suggest_deadline` (ai_module.py:95-128): when the reply is truthy and not
the word `"none"` case-insensitively, parse it with `strptime`; a parse
failure falls back to `_fallback_deadline_suggestion`.  When the service call
failed (`response` is `None`), or the reply is empty or `"none"`, the
function returns `None` — the fallback is *not* taken on service failure. -/
def suggest_deadline (reply : Option String) (now : ℤ) (workload : ℕ) : Option ℤ :=
  match reply with
  | none => none
  | some r =>
    if r.toList ≠ [] ∧ lowerL (stripL r.toList) ≠ "none".toList then
      match strptimeYmdHM (String.mk (stripL r.toList)) with
      | some dt => some (dtMinutes dt)
      | none => some (fallbackDeadlineSuggestion now workload)
    else none

/-- `_fallback_description_enhancement` (ai_module.py:277-282). -/
def fallbackDescriptionEnhancement (title description : String) : String :=
  if description.toList ≠ [] then description
  else "Task: " ++ title ++ ". Please add more details as needed."

/-- `enhance_task_description` (ai_module.py:159-192): a truthy reply is
returned stripped; otherwise the fallback. -/
def enhance_task_description (reply : Option String) (title description : String) : String :=
  match reply with
  | none => fallbackDescriptionEnhancement title description
  | some r =>
    if r.toList = [] then fallbackDescriptionEnhancement title description
    else String.mk (stripL r.toList)

/-! ## JSON values and `json.loads`

`analyze_context` and `suggest_categories_and_tags` hand service replies to
`json.loads`.  The model implements the JSON grammar (literals, numbers,
strings with the single-character escapes, arrays, objects); the CPython
extensions `NaN`/`Infinity` and `\u` escapes are not modelled, so replies
using them count as unparseable.  Parsing recurses on an explicit depth
budget large enough for any input of the given length, keeping every
definition structurally recursive and kernel-evaluable. -/

inductive Json where
  | null
  | bool (b : Bool)
  | num (q : ℚ)
  | str (s : String)
  | arr (elems : List Json)
  | obj (fields : List (String × Json))

/-- The opening brace character, written by code so that no brace literal
appears in the file. -/
def lbraceChar : Char := Char.ofNat 123

/-- The closing brace character. -/
def rbraceChar : Char := Char.ofNat 125

/-- JSON whitespace. -/
def jsonWs (c : Char) : Bool := c = ' ' ∨ c = '\t' ∨ c = '\n' ∨ c = '\r'

def skipWs (cs : List Char) : List Char := cs.dropWhile jsonWs

/-- Single-character string escapes of JSON. -/
def escChar (c : Char) : Option Char :=
  if c = '"' ∨ c = '\\' ∨ c = '/' then some c
  else if c = 'n' then some (Char.ofNat 10)
  else if c = 't' then some (Char.ofNat 9)
  else if c = 'r' then some (Char.ofNat 13)
  else if c = 'b' then some (Char.ofNat 8)
  else if c = 'f' then some (Char.ofNat 12)
  else none

/-- Parse the body of a JSON string after the opening quote; returns the
decoded characters and the remainder after the closing quote. -/
def parseStringBody : List Char → Option (List Char × List Char)
  | [] => none
  | c :: r =>
    if c = '"' then some ([], r)
    else if c = '\\' then
      match r with
      | [] => none
      | e :: r2 =>
        match escChar e with
        | some ec => (parseStringBody r2).map (fun sr => (ec :: sr.1, sr.2))
        | none => none
    else if c.toNat < 32 then none
    else (parseStringBody r).map (fun sr => (c :: sr.1, sr.2))

/-- Parse an optional JSON exponent; unlike a float literal the remainder need
not be empty. -/
def parseNumExp : List Char → Option (Bool × Nat × List Char)
  | [] => some (true, 0, [])
  | c :: r =>
    if c = 'e' ∨ c = 'E' then
      let (pos, r1) :=
        match r with
        | '+' :: t => (true, t)
        | '-' :: t => (false, t)
        | t => (true, t)
      let (ds, rest) := takeDigits r1
      if ds.isEmpty then none else some (pos, natOfDigits ds, rest)
    else some (true, 0, c :: r)

/-- Parse a JSON number (no leading zeros, mandatory fraction digits). -/
def parseJsonNumber (cs : List Char) : Option (Json × List Char) :=
  let (neg, cs1) := match cs with | '-' :: t => (true, t) | t => (false, t)
  match cs1 with
  | [] => none
  | c :: _ =>
    if ¬ c.isDigit then none
    else
      let (ds, r1) := takeDigits cs1
      if 1 < ds.length ∧ c = '0' then none
      else
        match r1 with
        | '.' :: r2 =>
          let (fs, r3) := takeDigits r2
          if fs.isEmpty then none
          else (parseNumExp r3).map (fun pe => (Json.num (floatVal neg ds fs pe.1 pe.2.1), pe.2.2))
        | _ => (parseNumExp r1).map (fun pe => (Json.num (floatVal neg ds [] pe.1 pe.2.1), pe.2.2))

/-- One depth level of the JSON parser: a value parser, an array-items parser
and an object-items parser, each falling back to the previous level for
subterms. -/
structure JParsers where
  value : List Char → Option (Json × List Char)
  arrItems : List Char → Option (List Json × List Char)
  objItems : List Char → Option (List (String × Json) × List Char)

def jparsers : Nat → JParsers
  | 0 => ⟨fun _ => none, fun _ => none, fun _ => none⟩
  | n + 1 =>
    let p := jparsers n
    { value := fun cs =>
        match skipWs cs with
        | [] => none
        | c :: r =>
          if c = '"' then (parseStringBody r).map (fun sr => (Json.str (String.mk sr.1), sr.2))
          else if c = '[' then
            match skipWs r with
            | ']' :: r2 => some (Json.arr [], r2)
            | r2 => (p.arrItems r2).map (fun xr => (Json.arr xr.1, xr.2))
          else if c = lbraceChar then
            match skipWs r with
            | [] => none
            | c2 :: r2 =>
              if c2 = rbraceChar then some (Json.obj [], r2)
              else (p.objItems (c2 :: r2)).map (fun xr => (Json.obj xr.1, xr.2))
          else
            match c :: r with
            | 'n' :: 'u' :: 'l' :: 'l' :: r2 => some (Json.null, r2)
            | 't' :: 'r' :: 'u' :: 'e' :: r2 => some (Json.bool true, r2)
            | 'f' :: 'a' :: 'l' :: 's' :: 'e' :: r2 => some (Json.bool false, r2)
            | cs2 => parseJsonNumber cs2
      arrItems := fun cs =>
        match p.value cs with
        | some (v, r) =>
          match skipWs r with
          | ',' :: r2 => (p.arrItems r2).map (fun xr => (v :: xr.1, xr.2))
          | ']' :: r2 => some ([v], r2)
          | _ => none
        | none => none
      objItems := fun cs =>
        match skipWs cs with
        | [] => none
        | c :: r =>
          if c = '"' then
            match parseStringBody r with
            | some (k, r1) =>
              match skipWs r1 with
              | ':' :: r2 =>
                match p.value r2 with
                | some (v, r3) =>
                  match skipWs r3 with
                  | [] => none
                  | c4 :: r4 =>
                    if c4 = ',' then
                      (p.objItems r4).map (fun xr => ((String.mk k, v) :: xr.1, xr.2))
                    else if c4 = rbraceChar then some ([(String.mk k, v)], r4)
                    else none
                | none => none
              | _ => none
            | none => none
          else none }

/-- Python `json.loads`: parse one value and require only whitespace after it. -/
def jsonParse (s : String) : Option Json :=
  match (jparsers (2 * s.toList.length + 4)).value s.toList with
  | some (j, rest) => if (skipWs rest).isEmpty then some j else none
  | none => none

/-- Lookup in a parsed JSON object; later duplicates win, as in a Python dict
built by `json.loads`. -/
def jsonLookup (fields : List (String × Json)) (k : String) : Option Json :=
  match fields with
  | [] => none
  | f :: t =>
    match jsonLookup t k with
    | some v => some v
    | none => if f.1 = k then some f.2 else none

/-! ## The JSON-consuming operations -/

/-- Fallback category and tags in JSON form. -/
def fallbackCatJson (title : String) : Json × Json :=
  (Json.str (fallbackCategorization title).1,
   Json.arr ((fallbackCategorization title).2.map Json.str))

/-- `suggest_categories_and_tags` (ai_module.py:130-157): a parsed JSON object
yields `result.get('category', 'General')` and `result.get('tags', [])`; a
`JSONDecodeError` takes the inner fallback; a parsed non-object makes
`result.get` raise `AttributeError`, which the outer `except` also turns into
the fallback.  Only the title reaches `_fallback_categorization`. -/
def suggest_categories_and_tags (reply : Option String) (title : String) : Json × Json :=
  match reply with
  | none => fallbackCatJson title
  | some r =>
    if r.toList = [] then fallbackCatJson title
    else
      match jsonParse r with
      | none => fallbackCatJson title
      | some (Json.obj fs) =>
        ((jsonLookup fs "category").getD (Json.str "General"),
         (jsonLookup fs "tags").getD (Json.arr []))
      | some _ => fallbackCatJson title

/-- The fallback insight bundle as the JSON-like dict `analyze_context`
returns. -/
def insightsJson (i : Insights) : Json :=
  Json.obj
    [("topics", Json.arr (i.topics.map Json.str)),
     ("deadlines", Json.arr (i.deadlines.map Json.str)),
     ("priorities", Json.arr (i.priorities.map Json.str)),
     ("sentiment", Json.str i.sentiment),
     ("action_items", Json.arr (i.action_items.map Json.str)),
     ("keywords", Json.arr (i.keywords.map Json.str))]

/-- `analyze_context` (ai_module.py:27-55): a truthy reply is handed to
`json.loads` and returned as-is (whatever shape it has); a decode error or a
service failure takes `_fallback_context_analysis`. -/
def analyze_context (reply : Option String) (content : String) : Json :=
  match reply with
  | none => insightsJson (fallbackContextAnalysis content)
  | some r =>
    if r.toList = [] then insightsJson (fallbackContextAnalysis content)
    else
      match jsonParse r with
      | some j => j
      | none => insightsJson (fallbackContextAnalysis content)

/-- Python `d.get(k, default)` on a value of unknown shape: raises
`AttributeError` unless the value is a dict (views.py:136-138 calls it on
whatever `analyze_context` returned). -/
def pyDictGet (j : Json) (k : String) (default : Json) : Except String Json :=
  match j with
  | Json.obj fs => Except.ok ((jsonLookup fs k).getD default)
  | _ => Except.error "AttributeError"

/-- String equality test between a JSON value and a Python string. -/
def jsonEqStr (j : Json) (x : String) : Bool :=
  match j with
  | Json.str s => s == x
  | _ => false

/-- Python `x in j` for a string `x`: membership for a list, substring for a
string, key membership for a dict, `TypeError` otherwise. -/
def pyInJson (x : String) (j : Json) : Except String Bool :=
  match j with
  | Json.arr xs => Except.ok (xs.any (fun v => jsonEqStr v x))
  | Json.str s => Except.ok (strContains s x)
  | Json.obj fs => Except.ok (fs.any (fun f => f.1 == x))
  | _ => Except.error "TypeError"

/-- `ContextEntryViewSet._calculate_sentiment_score` (views.py:141-148): the
label is lowercased (an `AttributeError` if it is not a string) and mapped
through the fixed table with default `0.5`. -/
def calcSentimentScore (sentiment : Json) : Except String ℚ :=
  match sentiment with
  | Json.str s =>
    let sl := String.mk (lowerL s.toList)
    Except.ok
      (if sl = "positive" then mkRat 8 10
       else if sl = "negative" then mkRat 2 10
       else if sl = "neutral" then mkRat 1 2
       else mkRat 1 2)
  | _ => Except.error "AttributeError"

/-- `ContextEntryViewSet._calculate_priority_score` (views.py:150-158), with
Python's left-to-right short-circuit on the `in` tests. -/
def calcPriorityScore (priorities : Json) : Except String ℚ :=
  match pyInJson "high" priorities with
  | Except.error e => Except.error e
  | Except.ok true => Except.ok (mkRat 8 10)
  | Except.ok false =>
    match pyInJson "urgent" priorities with
    | Except.error e => Except.error e
    | Except.ok true => Except.ok (mkRat 8 10)
    | Except.ok false =>
      match pyInJson "important" priorities with
      | Except.error e => Except.error e
      | Except.ok true => Except.ok (mkRat 6 10)
      | Except.ok false => Except.ok (mkRat 4 10)

/-- The fields `ContextEntryViewSet.perform_create` writes back. -/
structure CtxResult where
  processed_insights : Json
  keywords : Json
  sentiment_score : ℚ
  priority_score : ℚ

/-- The unguarded field reads of `ContextEntryViewSet.perform_create`
(views.py:135-138), applied to whatever `analyze_context` returned, in source
order: `keywords`, then `sentiment` and its score, then `priorities` and its
score. -/
def contextSteps (analysis : Json) : Except String CtxResult :=
  match pyDictGet analysis "keywords" (Json.arr []) with
  | Except.error e => Except.error e
  | Except.ok kws =>
    match pyDictGet analysis "sentiment" (Json.str "neutral") with
    | Except.error e => Except.error e
    | Except.ok sent =>
      match calcSentimentScore sent with
      | Except.error e => Except.error e
      | Except.ok ss =>
        match pyDictGet analysis "priorities" (Json.arr []) with
        | Except.error e => Except.error e
        | Except.ok pr =>
          match calcPriorityScore pr with
          | Except.error e => Except.error e
          | Except.ok ps => Except.ok ⟨analysis, kws, ss, ps⟩

/-- `ContextEntryViewSet.perform_create` (views.py:124-139): save, analyze,
then read the analysis fields back.  None of the reads is guarded by a
`try`, so a reply that parses as JSON of an unexpected shape raises out of
the handler. -/
def perform_create (reply : Option String) (content : String) : Except String CtxResult :=
  contextSteps (analyze_context reply content)

/-- Whether a reply-shaped analysis lets `perform_create` finish: a JSON
object whose `sentiment` (if any) is a string and whose `priorities` (if any)
supports the `in` operator. -/
def wellFormedAnalysis : Json → Bool
  | Json.obj fs =>
    (match jsonLookup fs "sentiment" with
     | some (Json.str _) => true
     | none => true
     | some _ => false)
    &&
    (match jsonLookup fs "priorities" with
     | some (Json.arr _) => true
     | some (Json.str _) => true
     | some (Json.obj _) => true
     | none => true
     | some _ => false)
  | _ => false

/-- Boolean success test for an `Except`-modelled Python call. -/
def exceptIsOk {α : Type} : Except String α → Bool
  | Except.ok _ => true
  | Except.error _ => false

/-! ## Task creation (`TaskCreateSerializer.create`, serializers.py:121-163) -/

/-- Python truthiness of a JSON value. -/
def jsonTruthy : Json → Bool
  | Json.null => false
  | Json.bool b => b
  | Json.num q => decide (q ≠ mkRat 0 1)
  | Json.str s => !s.toList.isEmpty
  | Json.arr xs => !xs.isEmpty
  | Json.obj fs => !fs.isEmpty

/-- The enriched fields of a freshly created task (models.py defaults:
status `pending`, `completed_at` null). -/
structure CreatedTask where
  title : String
  description : String
  status : TaskStatus
  priority_score : ℚ
  suggested_deadline : Option ℤ
  category : Option Json
  tags : Option Json
  ai_enhanced_description : String
  completed_at : Option ℤ

/-- `TaskCreateSerializer.create`: the four suggestion calls in source order,
each with its own service outcome.  `category`/`tags` are stored only when
the suggested category name is truthy (serializers.py:151-157). -/
def task_create (rScore rDeadline rCat rDesc : Option String)
    (title description : String) (now : ℤ) (workload : ℕ) : CreatedTask :=
  let score := prioritize_task rScore title description
  let dl := suggest_deadline rDeadline now workload
  let ct := suggest_categories_and_tags rCat title
  let enh := enhance_task_description rDesc title description
  { title := title
    description := description
    status := TaskStatus.pending
    priority_score := score
    suggested_deadline := dl
    category := if jsonTruthy ct.1 then some ct.1 else none
    tags := if jsonTruthy ct.1 then some ct.2 else none
    ai_enhanced_description := enh
    completed_at := none }

/-! ## The statistics action (`TaskViewSet.stats`, views.py:72-99) -/

/-- Python `a / b` on counts: `ZeroDivisionError` when `b = 0`. -/
def pyDivNat (a b : Nat) : Except String ℚ :=
  if b = 0 then Except.error "ZeroDivisionError" else Except.ok (mkRat (Int.ofNat a) b)

/-- Multiplication of a rational by a literal, in kernel-evaluable form. -/
def qMulNat (n : Nat) (q : ℚ) : ℚ := mkRat (Int.ofNat n * q.num) q.den

/-- Python `round` to the nearest integer, ties to even (the model works on
exact rationals; the scores involved are short decimals). -/
def roundHalfEven (q : ℚ) : ℤ :=
  let f := q.floor
  let tworem : ℚ := mkRat (2 * (q.num - f * Int.ofNat q.den)) q.den
  if tworem < mkRat 1 1 then f
  else if mkRat 1 1 < tworem then f + 1
  else if f % 2 = 0 then f else f + 1

/-- Python `round(x, 1)`. -/
def pyRound1 (q : ℚ) : ℚ := mkRat (roundHalfEven (qMulNat 10 q)) 10

/-- Number of completed tasks. -/
def completedCount (tasks : List Task) : Nat :=
  (tasks.filter (fun t => t.status == TaskStatus.completed)).length

/-- Score at least 0.7, the `high_priority` filter. -/
def isHighPriority (t : Task) : Bool := decide (mkRat 7 10 ≤ t.priority_score)

/-- Overdue: a due date strictly before now and a status of pending or
in-progress (tasks without a due date never match). -/
def isOverdue (now : ℤ) (t : Task) : Bool :=
  match t.due_date with
  | some d => decide (d < now) && (t.status == TaskStatus.pending || t.status == TaskStatus.in_progress)
  | none => false

/-- The response body of the statistics action. -/
structure StatsR where
  total : Nat
  completed : Nat
  pending : Nat
  in_progress : Nat
  high_priority : Nat
  overdue : Nat
  completion_rate : ℚ
deriving DecidableEq

/-- `TaskViewSet.stats`: the guarded completion rate
`round((completed / total * 100) if total > 0 else 0, 1)`; the division is
modelled by `pyDivNat` so that the guard's absence would surface the
`ZeroDivisionError`. -/
def stats (now : ℤ) (tasks : List Task) : Except String StatsR :=
  let total := tasks.length
  let completed := completedCount tasks
  let rate :=
    if 0 < total then (pyDivNat completed total).map (qMulNat 100) else Except.ok (mkRat 0 1)
  match rate with
  | Except.error e => Except.error e
  | Except.ok x =>
    Except.ok
      { total := total
        completed := completed
        pending := (tasks.filter (fun t => t.status == TaskStatus.pending)).length
        in_progress := (tasks.filter (fun t => t.status == TaskStatus.in_progress)).length
        high_priority := (tasks.filter isHighPriority).length
        overdue := (tasks.filter (isOverdue now)).length
        completion_rate := pyRound1 x }


/-! ## Example rows used by the concrete theorems -/

/-- The pending example row in the in-progress state. -/
def inProgressTaskExample : Task :=
  { pendingTaskExample with status := TaskStatus.in_progress }

/-- A completed task row. -/
def completedTaskExample : Task :=
  { pendingTaskExample with status := TaskStatus.completed, completed_at := some 1 }

/-- Shapes on which Python `x in j` succeeds rather than raising `TypeError`. -/
def supportsIn : Json → Bool
  | Json.arr _ => true
  | Json.str _ => true
  | Json.obj _ => true
  | _ => false

/-! ## Helper lemmas -/

theorem priorityOfCount_mem (c : Nat) :
    priorityOfCount c = mkRat 1 2 ∨ priorityOfCount c = mkRat 7 10 ∨
      priorityOfCount c = mkRat 9 10 := by
  unfold priorityOfCount
  split_ifs <;> simp

theorem priorityOfCount_bounds (c : Nat) :
    0 ≤ priorityOfCount c ∧ priorityOfCount c ≤ 1 := by
  unfold priorityOfCount
  split_ifs <;> exact ⟨by decide, by decide⟩

theorem priorityOfCount_mono {a b : Nat} (h : a ≤ b) :
    priorityOfCount a ≤ priorityOfCount b := by
  unfold priorityOfCount
  split_ifs <;> first
  | decide
  | omega

/-! ## C1, C10: status toggling -/

/-- C1 (code bug): on a pending task that satisfies the claimed invariant
`completed_at set iff status completed`, the toggle-status action produces a
completed task whose `completed_at` is still null, breaking the invariant —
views.py:41-45 assigns only `status`.  The serializer update path, by
contrast, does stamp `completed_at`, which is the documented intent. -/
theorem toggle_status_leaves_completed_at_null :
    completedAtInvariant pendingTaskExample ∧
    (toggle_status 5 pendingTaskExample).status = TaskStatus.completed ∧
    (toggle_status 5 pendingTaskExample).completed_at = none ∧
    ¬ completedAtInvariant (toggle_status 5 pendingTaskExample) ∧
    (serializer_update 5 pendingTaskExample (some TaskStatus.completed)).completed_at = some 5 ∧
    completedAtInvariant (serializer_update 5 pendingTaskExample (some TaskStatus.completed)) := by
  unfold completedAtInvariant
  decide

/-- C10: on a task whose status is in-progress or cancelled, the toggle-status
action returns the task unchanged except for the auto-now update timestamp. -/
theorem toggle_status_other_states_identity (t : Task) (now : ℤ)
    (h : t.status = TaskStatus.in_progress ∨ t.status = TaskStatus.cancelled) :
    toggle_status now t = { t with updated_at := now } := by
  rcases h with h | h <;> simp [toggle_status, h]

/-- C10 witness: the identity at a concrete in-progress task. -/
theorem toggle_status_other_states_identity_witness :
    toggle_status 3 inProgressTaskExample = { inProgressTaskExample with updated_at := 3 } :=
  toggle_status_other_states_identity inProgressTaskExample 3 (Or.inl rfl)

/-! ## C4: the "Finish urgent report ASAP" round trip -/

/-- C4 counterexample: with the service disabled, creating a task titled
"Finish urgent report ASAP" stores category Personal, not the claimed Work —
no word of the Work bucket occurs in the lowercased title. -/
theorem create_urgent_report_not_work :
    (task_create none none none none "Finish urgent report ASAP" "" 0 0).category =
      some (Json.str "Personal") ∧
    anyWordIn workWords (lowerL "Finish urgent report ASAP".toList) = false ∧
    some (Json.str "Personal") ≠ some (Json.str "Work") := by
  refine ⟨rfl, rfl, ?_⟩
  simp

/-- C4 amended: the round trip with the service disabled yields priority score
0.9, category Personal and tags [personal, general]. -/
theorem create_urgent_report_personal :
    (task_create none none none none "Finish urgent report ASAP" "" 0 0).priority_score =
      mkRat 9 10 ∧
    (task_create none none none none "Finish urgent report ASAP" "" 0 0).category =
      some (Json.str "Personal") ∧
    (task_create none none none none "Finish urgent report ASAP" "" 0 0).tags =
      some (Json.arr [Json.str "personal", Json.str "general"]) :=
  ⟨rfl, rfl, rfl⟩

/-! ## C5: levels and monotonicity of the priority fallback -/

/-- C5: the priority fallback returns 0.9 / 0.7 / 0.5 according as the urgency
count is at least 2 / exactly 1 / zero, so it always lands in that three-value
set and is monotone non-decreasing in the count. -/
theorem fallback_priority_levels_and_monotone (t d u e : String) :
    (fallbackPriorityCalculation t d = mkRat 1 2 ∨
     fallbackPriorityCalculation t d = mkRat 7 10 ∨
     fallbackPriorityCalculation t d = mkRat 9 10) ∧
    (2 ≤ urgencyCount t d → fallbackPriorityCalculation t d = mkRat 9 10) ∧
    (urgencyCount t d = 1 → fallbackPriorityCalculation t d = mkRat 7 10) ∧
    (urgencyCount t d = 0 → fallbackPriorityCalculation t d = mkRat 1 2) ∧
    (urgencyCount t d ≤ urgencyCount u e →
      fallbackPriorityCalculation t d ≤ fallbackPriorityCalculation u e) := by
  refine ⟨priorityOfCount_mem _, ?_, ?_, ?_, fun h => priorityOfCount_mono h⟩
  · intro h
    unfold fallbackPriorityCalculation priorityOfCount
    rw [if_pos h]
  · intro h
    unfold fallbackPriorityCalculation priorityOfCount
    rw [if_neg (by omega), if_pos h]
  · intro h
    unfold fallbackPriorityCalculation priorityOfCount
    rw [if_neg (by omega), if_neg (by omega)]

/-- C5 witness: the three levels at concrete inputs. -/
theorem fallback_priority_levels_witness :
    fallbackPriorityCalculation "urgent asap" "" = mkRat 9 10 ∧
    fallbackPriorityCalculation "pay the bill due" "" = mkRat 7 10 ∧
    fallbackPriorityCalculation "walk the dog" "" = mkRat 1 2 :=
  ⟨(fallback_priority_levels_and_monotone "urgent asap" "" "" "").2.1 (by decide),
   (fallback_priority_levels_and_monotone "pay the bill due" "" "" "").2.2.1 (by decide),
   (fallback_priority_levels_and_monotone "walk the dog" "" "" "").2.2.2.1 (by decide)⟩

/-! ## C6: the categorization fallback -/

/-- C6: the categorization fallback is a total function of the lowercased
title, always one of the five bucket pairs, with bucket priority
Work > Home > Health > Learning > Personal-default: the first bucket with a
keyword in the title wins. -/
theorem fallback_categorization_buckets (title other : String) :
    (fallbackCategorization title = ("Work", ["work", "professional"]) ∨
     fallbackCategorization title = ("Home", ["home", "household"]) ∨
     fallbackCategorization title = ("Health", ["health", "wellness"]) ∨
     fallbackCategorization title = ("Learning", ["learning", "education"]) ∨
     fallbackCategorization title = ("Personal", ["personal", "general"])) ∧
    (lowerL title.toList = lowerL other.toList →
      fallbackCategorization title = fallbackCategorization other) ∧
    (anyWordIn workWords (lowerL title.toList) = true →
      fallbackCategorization title = ("Work", ["work", "professional"])) ∧
    (anyWordIn workWords (lowerL title.toList) = false →
     anyWordIn homeWords (lowerL title.toList) = true →
      fallbackCategorization title = ("Home", ["home", "household"])) ∧
    (anyWordIn workWords (lowerL title.toList) = false →
     anyWordIn homeWords (lowerL title.toList) = false →
     anyWordIn healthWords (lowerL title.toList) = true →
      fallbackCategorization title = ("Health", ["health", "wellness"])) ∧
    (anyWordIn workWords (lowerL title.toList) = false →
     anyWordIn homeWords (lowerL title.toList) = false →
     anyWordIn healthWords (lowerL title.toList) = false →
     anyWordIn learnWords (lowerL title.toList) = true →
      fallbackCategorization title = ("Learning", ["learning", "education"])) ∧
    (anyWordIn workWords (lowerL title.toList) = false →
     anyWordIn homeWords (lowerL title.toList) = false →
     anyWordIn healthWords (lowerL title.toList) = false →
     anyWordIn learnWords (lowerL title.toList) = false →
      fallbackCategorization title = ("Personal", ["personal", "general"])) := by
  refine ⟨?_, ?_, ?_, ?_, ?_, ?_, ?_⟩
  · unfold fallbackCategorization
    dsimp only
    split_ifs <;> simp
  · intro h
    unfold fallbackCategorization
    rw [h]
  · intro h
    unfold fallbackCategorization
    simp only [h, if_true]
  · intro h1 h2
    unfold fallbackCategorization
    simp only [h1, h2, if_true, if_false, Bool.false_eq_true]
  · intro h1 h2 h3
    unfold fallbackCategorization
    simp only [h1, h2, h3, if_true, if_false, Bool.false_eq_true]
  · intro h1 h2 h3 h4
    unfold fallbackCategorization
    simp only [h1, h2, h3, h4, if_true, if_false, Bool.false_eq_true]
  · intro h1 h2 h3 h4
    unfold fallbackCategorization
    simp only [h1, h2, h3, h4, if_false, Bool.false_eq_true]

/-- C6 witness: a title hit by the Home bucket but not the Work bucket. -/
theorem fallback_categorization_buckets_witness :
    fallbackCategorization "Clean the house" = ("Home", ["home", "household"]) :=
  (fallback_categorization_buckets "Clean the house" "").2.2.2.1 (by decide) (by decide)

/-! ## C2: suggest_deadline and its fallback -/

/-- C2 counterexample: with the service unavailable and no open tasks,
`suggest_deadline` returns no deadline at all, while the claimed fallback
would be now + 1 day (1440 ticks from now = 0); the fallback fires only on a
parse failure, not on service failure. -/
theorem suggest_deadline_unavailable_returns_none :
    suggest_deadline none 0 0 = none ∧
    fallbackDeadlineSuggestion 0 0 = 1440 ∧
    (none : Option ℤ) ≠ some 1440 := by
  decide

/-- C2 amended: the fallback `now + min(workload + 1, 7) days` (with its
claimed values at workloads 0, 6 and 10) is returned exactly when a
non-empty reply other than "none" (case-insensitive) fails to parse in the
strict format; a failed service call, an empty reply, or a "none" reply all
yield no deadline. -/
theorem suggest_deadline_fallback_characterization (r : String) (now : ℤ) (w : ℕ) :
    suggest_deadline none now w = none ∧
    suggest_deadline (some "") now w = none ∧
    (lowerL (stripL r.toList) = "none".toList → suggest_deadline (some r) now w = none) ∧
    (r.toList ≠ [] → lowerL (stripL r.toList) ≠ "none".toList →
      strptimeYmdHM (String.mk (stripL r.toList)) = none →
      suggest_deadline (some r) now w = some (fallbackDeadlineSuggestion now w)) ∧
    fallbackDeadlineSuggestion now 0 = now + 1440 ∧
    fallbackDeadlineSuggestion now 6 = now + 7 * 1440 ∧
    fallbackDeadlineSuggestion now 10 = now + 7 * 1440 := by
  refine ⟨rfl, by simp [suggest_deadline], ?_, ?_, ?_, ?_, ?_⟩
  · intro h
    unfold suggest_deadline
    dsimp only
    rw [if_neg (fun hc => hc.2 h)]
  · intro h1 h2 h3
    unfold suggest_deadline
    dsimp only
    rw [if_pos ⟨h1, h2⟩, h3]
  · unfold fallbackDeadlineSuggestion minutesPerDay
    norm_num
  · unfold fallbackDeadlineSuggestion minutesPerDay
    norm_num
  · unfold fallbackDeadlineSuggestion minutesPerDay
    norm_num

/-- C2 witness: an unparseable reply takes the fallback; a "None" reply gives
no deadline. -/
theorem suggest_deadline_fallback_witness :
    suggest_deadline (some "soon") 0 0 = some 1440 ∧
    suggest_deadline (some " None ") 0 3 = none := by
  constructor
  · rw [(suggest_deadline_fallback_characterization "soon" 0 0).2.2.2.1
      (by decide) (by decide) (by decide)]
    decide
  · exact (suggest_deadline_fallback_characterization " None " 0 3).2.2.1 (by decide)

/-! ## C3: the range of score_priority -/

/-- C3 counterexample: the reply "1.5" parses as a float and is returned
unclamped, so `score_priority` is not always in [0, 1]. -/
theorem prioritize_task_unclamped_reply :
    prioritize_task (some "1.5") "write report" "" = mkRat 3 2 ∧
    ¬ ((mkRat 3 2 : ℚ) ≤ 1) := by
  constructor
  · decide
  · decide

/-- C3 amended: `score_priority` returns the reply parsed as a float verbatim
whenever the reply is truthy and parses (which may lie outside [0, 1]); on a
failed service call, an empty reply, or an unparseable reply it returns the
fallback value, which is one of 0.5, 0.7, 0.9 and in particular in [0, 1]. -/
theorem prioritize_task_value_or_fallback (reply : Option String) (t d : String) :
    (∃ r, reply = some r ∧ r.toList ≠ [] ∧
      pyFloat (String.mk (stripL r.toList)) = some (prioritize_task reply t d)) ∨
    (prioritize_task reply t d = fallbackPriorityCalculation t d ∧
     (prioritize_task reply t d = mkRat 1 2 ∨ prioritize_task reply t d = mkRat 7 10 ∨
       prioritize_task reply t d = mkRat 9 10) ∧
     0 ≤ prioritize_task reply t d ∧ prioritize_task reply t d ≤ 1) := by
  match reply with
  | none =>
    right
    exact ⟨rfl, priorityOfCount_mem _,
      (priorityOfCount_bounds _).1, (priorityOfCount_bounds _).2⟩
  | some r =>
    by_cases he : r.toList = []
    · right
      have hval : prioritize_task (some r) t d = fallbackPriorityCalculation t d := by
        unfold prioritize_task
        dsimp only
        rw [if_pos he]
      rw [hval]
      exact ⟨rfl, priorityOfCount_mem _,
        (priorityOfCount_bounds _).1, (priorityOfCount_bounds _).2⟩
    · cases hp : pyFloat (String.mk (stripL r.toList)) with
      | some x =>
        left
        have hval : prioritize_task (some r) t d = x := by
          unfold prioritize_task
          dsimp only
          rw [if_neg he, hp]
        exact ⟨r, rfl, he, by rw [hval, hp]⟩
      | none =>
        right
        have hval : prioritize_task (some r) t d = fallbackPriorityCalculation t d := by
          unfold prioritize_task
          dsimp only
          rw [if_neg he, hp]
        rw [hval]
        exact ⟨rfl, priorityOfCount_mem _,
          (priorityOfCount_bounds _).1, (priorityOfCount_bounds _).2⟩

/-- C3 amended witness: a disabled service yields the fallback value 0.9 at a
two-keyword title. -/
theorem prioritize_task_value_or_fallback_witness :
    prioritize_task none "urgent due work" "" = mkRat 9 10 := by
  rcases prioritize_task_value_or_fallback none "urgent due work" "" with ⟨r, hr, _⟩ | ⟨h, _⟩
  · exact absurd hr (by simp)
  · rw [h]
    decide

/-! ## C7: the context-analysis fallback -/

theorem filterLengthPosIffAny {α : Type} (p : α → Bool) (l : List α) :
    (0 < (l.filter p).length) ↔ l.any p = true := by
  simp [List.length_pos, List.any_eq_true, List.filter_eq_nil_iff]

/-- C7 counterexample: "emergency" belongs to the urgency lexicon and occurs
in the content, yet the context-analysis fallback labels the priority
"normal" — `_fallback_context_analysis` uses a seven-word list that omits
"emergency". -/
theorem context_analysis_emergency_not_high :
    "emergency" ∈ urgencyWordsPriority ∧
    strContains "emergency" "emergency" = true ∧
    (fallbackContextAnalysis "emergency").priorities = ["normal"] ∧
    "emergency" ∉ urgencyWordsContext := by
  refine ⟨by decide, by decide, by decide, by decide⟩

/-- C7 amended: the fallback tokenizes the lowercased content into words of
length at least 4, drops the stop words, takes the first 5 as topics and the
first 10 as keywords, always reports sentiment "neutral" and empty deadlines
and action items, and labels the priority "high" exactly when a word of the
seven-word lexicon (without "emergency") occurs in the content. -/
theorem fallback_context_analysis_characterization (content : String) :
    (fallbackContextAnalysis content).topics = (contextKeywords content).take 5 ∧
    (fallbackContextAnalysis content).keywords = (contextKeywords content).take 10 ∧
    (fallbackContextAnalysis content).topics.length ≤ 5 ∧
    (fallbackContextAnalysis content).keywords.length ≤ 10 ∧
    (∀ k, k ∈ contextKeywords content → 4 ≤ k.toList.length ∧ k ∉ stopWords) ∧
    (fallbackContextAnalysis content).sentiment = "neutral" ∧
    (fallbackContextAnalysis content).deadlines = [] ∧
    (fallbackContextAnalysis content).action_items = [] ∧
    (fallbackContextAnalysis content).priorities =
      [if urgencyWordsContext.any (fun w => strContainsL w.toList (lowerL content.toList)) then
        "high" else "normal"] := by
  refine ⟨rfl, rfl, List.length_take_le 5 _, List.length_take_le 10 _, ?_, rfl, rfl, rfl, ?_⟩
  · intro k hk
    unfold contextKeywords at hk
    simp only [List.mem_filter, List.mem_map] at hk
    obtain ⟨⟨r, hr, hkr⟩, hstop⟩ := hk
    constructor
    · have hlist : k.toList = r := by
        rw [← hkr]
        rfl
      rw [hlist]
      exact of_decide_eq_true hr.2
    · intro hmem
      rw [Bool.not_eq_true', ← Bool.not_eq_true] at hstop
      exact hstop (List.elem_iff.mpr hmem)
  · unfold fallbackContextAnalysis
    dsimp only
    rw [if_congr (filterLengthPosIffAny _ _) rfl rfl]

/-- C7 amended witness: concrete contents hitting both priority branches. -/
theorem fallback_context_analysis_witness :
    (fallbackContextAnalysis "urgent budget meeting").priorities = ["high"] ∧
    (fallbackContextAnalysis "hello world").priorities = ["normal"] := by
  constructor
  · rw [(fallback_context_analysis_characterization "urgent budget meeting").2.2.2.2.2.2.2.2]
    decide
  · rw [(fallback_context_analysis_characterization "hello world").2.2.2.2.2.2.2.2]
    decide

/-! ## C8: creation under arbitrary service behaviour -/

theorem calcPriorityScore_ok (p : Json) (h : supportsIn p = true) :
    ∃ q, calcPriorityScore p = Except.ok q := by
  cases p with
  | null => exact absurd h (by decide)
  | bool b => exact absurd h (by cases b <;> decide)
  | num q => exact absurd h (by simp [supportsIn])
  | str s =>
    unfold calcPriorityScore pyInJson
    dsimp only
    cases strContains s "high"
    · cases strContains s "urgent"
      · cases strContains s "important"
        · exact ⟨_, rfl⟩
        · exact ⟨_, rfl⟩
      · exact ⟨_, rfl⟩
    · exact ⟨_, rfl⟩
  | arr xs =>
    unfold calcPriorityScore pyInJson
    dsimp only
    cases xs.any (fun v => jsonEqStr v "high")
    · cases xs.any (fun v => jsonEqStr v "urgent")
      · cases xs.any (fun v => jsonEqStr v "important")
        · exact ⟨_, rfl⟩
        · exact ⟨_, rfl⟩
      · exact ⟨_, rfl⟩
    · exact ⟨_, rfl⟩
  | obj fs =>
    unfold calcPriorityScore pyInJson
    dsimp only
    cases fs.any (fun f => f.1 == "high")
    · cases fs.any (fun f => f.1 == "urgent")
      · cases fs.any (fun f => f.1 == "important")
        · exact ⟨_, rfl⟩
        · exact ⟨_, rfl⟩
      · exact ⟨_, rfl⟩
    · exact ⟨_, rfl⟩

theorem contextSteps_obj (fs : List (String × Json)) :
    contextSteps (Json.obj fs) =
      match calcSentimentScore ((jsonLookup fs "sentiment").getD (Json.str "neutral")) with
      | Except.error e => Except.error e
      | Except.ok ss =>
        match calcPriorityScore ((jsonLookup fs "priorities").getD (Json.arr [])) with
        | Except.error e => Except.error e
        | Except.ok ps =>
          Except.ok ⟨Json.obj fs, (jsonLookup fs "keywords").getD (Json.arr []), ss, ps⟩ := by
  rfl

theorem contextSteps_ok_of_wellformed (a : Json) (h : wellFormedAnalysis a = true) :
    ∃ r, contextSteps a = Except.ok r := by
  cases a with
  | null => exact absurd h (by decide)
  | bool b => exact absurd h (by cases b <;> decide)
  | num q => exact absurd h (by simp [wellFormedAnalysis])
  | str s => exact absurd h (by simp [wellFormedAnalysis])
  | arr xs => exact absurd h (by simp [wellFormedAnalysis])
  | obj fs =>
    rw [contextSteps_obj]
    unfold wellFormedAnalysis at h
    rw [Bool.and_eq_true] at h
    obtain ⟨h1, h2⟩ := h
    obtain ⟨ss, hss⟩ :
        ∃ q, calcSentimentScore ((jsonLookup fs "sentiment").getD (Json.str "neutral")) =
          Except.ok q := by
      rcases hs : jsonLookup fs "sentiment" with _ | sv
      · exact ⟨mkRat 1 2, rfl⟩
      · rw [hs] at h1
        cases sv with
        | str s => exact ⟨_, rfl⟩
        | null => simp at h1
        | bool b => simp at h1
        | num q => simp at h1
        | arr xs => simp at h1
        | obj g => simp at h1
    obtain ⟨ps, hps⟩ :
        ∃ q, calcPriorityScore ((jsonLookup fs "priorities").getD (Json.arr [])) =
          Except.ok q := by
      rcases hp : jsonLookup fs "priorities" with _ | pv
      · exact calcPriorityScore_ok (Json.arr []) rfl
      · rw [hp] at h2
        cases pv with
        | arr xs => exact calcPriorityScore_ok (Json.arr xs) rfl
        | str s => exact calcPriorityScore_ok (Json.str s) rfl
        | obj g => exact calcPriorityScore_ok (Json.obj g) rfl
        | null => simp at h2
        | bool b => simp at h2
        | num q => simp at h2
    rw [hss, hps]
    exact ⟨_, rfl⟩

theorem wellFormed_insightsJson (i : Insights) :
    wellFormedAnalysis (insightsJson i) = true := rfl

theorem analyze_context_fallback_none (content : String) :
    analyze_context none content = insightsJson (fallbackContextAnalysis content) := rfl

theorem analyze_context_fallback_badjson (s content : String) (h : jsonParse s = none) :
    analyze_context (some s) content = insightsJson (fallbackContextAnalysis content) := by
  unfold analyze_context
  dsimp only
  by_cases he : s.toList = []
  · rw [if_pos he]
  · rw [if_neg he, h]

theorem analyze_context_parsed (s content : String) (j : Json) (he : s.toList ≠ [])
    (h : jsonParse s = some j) : analyze_context (some s) content = j := by
  unfold analyze_context
  dsimp only
  rw [if_neg he, h]

/-- C8 counterexample: a 200 reply whose body parses as the JSON array `[1]`
makes context creation raise (`AttributeError` from `.get` on a list), so
creation does not succeed for every service behaviour. -/
theorem context_create_json_array_fails :
    jsonParse "[1]" = some (Json.arr [Json.num (mkRat 1 1)]) ∧
    exceptIsOk (perform_create (some "[1]") "meeting notes") = false ∧
    perform_create (some "[1]") "meeting notes" = Except.error "AttributeError" :=
  ⟨rfl, rfl, rfl⟩

/-- C8 amended: task creation is total — every field is its own suggestion's
output, independently of the other replies — and context creation succeeds
whenever the service fails, the reply is not valid JSON, or the reply is a
JSON object of the expected shape; only a reply parsing to JSON of an
unexpected shape makes context creation raise. -/
theorem creation_degrades_characterization
    (r1 r2 r3 r4 : Option String) (title description : String) (now : ℤ) (w : ℕ)
    (rc : Option String) (content : String) :
    (task_create r1 r2 r3 r4 title description now w).priority_score =
      prioritize_task r1 title description ∧
    (task_create r1 r2 r3 r4 title description now w).suggested_deadline =
      suggest_deadline r2 now w ∧
    (task_create r1 r2 r3 r4 title description now w).ai_enhanced_description =
      enhance_task_description r4 title description ∧
    (rc = none → ∃ res, perform_create rc content = Except.ok res) ∧
    (∀ s, rc = some s → jsonParse s = none → ∃ res, perform_create rc content = Except.ok res) ∧
    (∀ s j, rc = some s → s.toList ≠ [] → jsonParse s = some j → wellFormedAnalysis j = true →
      ∃ res, perform_create rc content = Except.ok res) := by
  refine ⟨rfl, rfl, rfl, ?_, ?_, ?_⟩
  · rintro rfl
    unfold perform_create
    rw [analyze_context_fallback_none]
    exact contextSteps_ok_of_wellformed _ (wellFormed_insightsJson _)
  · rintro s rfl hj
    unfold perform_create
    rw [analyze_context_fallback_badjson s content hj]
    exact contextSteps_ok_of_wellformed _ (wellFormed_insightsJson _)
  · rintro s j rfl hne hj hwf
    unfold perform_create
    rw [analyze_context_parsed s content j hne hj]
    exact contextSteps_ok_of_wellformed _ hwf

/-- C8 amended witness: context creation succeeds on a failed service call, on
a non-JSON reply, and on a well-shaped JSON object reply. -/
theorem creation_degrades_witness :
    (∃ res, perform_create none "note" = Except.ok res) ∧
    (∃ res, perform_create (some "oops") "note" = Except.ok res) ∧
    (∃ res, perform_create (some "\x7b\"sentiment\": \"positive\"\x7d") "note" =
      Except.ok res) := by
  refine ⟨?_, ?_, ?_⟩
  · exact (creation_degrades_characterization none none none none "t" "" 0 0
      none "note").2.2.2.1 rfl
  · exact (creation_degrades_characterization none none none none "t" "" 0 0
      (some "oops") "note").2.2.2.2.1 "oops" rfl rfl
  · exact (creation_degrades_characterization none none none none "t" "" 0 0
      (some "\x7b\"sentiment\": \"positive\"\x7d") "note").2.2.2.2.2
      "\x7b\"sentiment\": \"positive\"\x7d"
      (Json.obj [("sentiment", Json.str "positive")]) rfl (by decide) rfl rfl

/-! ## C9: the statistics action -/

theorem qMulNat_eq (n : ℕ) (q : ℚ) : qMulNat n q = (n : ℚ) * q := by
  unfold qMulNat
  rw [Rat.mkRat_eq_div]
  push_cast [Int.ofNat_eq_natCast]
  rw [mul_div_assoc, Rat.num_div_den]

/-- C9: the statistics action never raises (in particular no division by
zero): on an empty task list the completion rate is 0, and on a non-empty
list it is the percentage of completed tasks rounded to one decimal. -/
theorem stats_completion_rate (now : ℤ) (tasks : List Task) :
    ∃ r, stats now tasks = Except.ok r ∧
      r.total = tasks.length ∧
      r.completed = completedCount tasks ∧
      (tasks = [] → r.completion_rate = 0) ∧
      (tasks ≠ [] →
        r.completion_rate =
          pyRound1 (qMulNat 100 (mkRat (Int.ofNat (completedCount tasks)) tasks.length))) ∧
      (tasks ≠ [] →
        r.completion_rate =
          pyRound1 ((completedCount tasks : ℚ) / (tasks.length : ℚ) * 100)) := by
  cases tasks with
  | nil =>
    refine ⟨_, rfl, rfl, rfl, ?_, ?_, ?_⟩
    · intro _
      rfl
    · intro h
      exact absurd rfl h
    · intro h
      exact absurd rfl h
  | cons t ts =>
    have hlen : 0 < (t :: ts).length := by simp
    have hne2 : (t :: ts).length ≠ 0 := by simp
    have hdiv : pyDivNat (completedCount (t :: ts)) (t :: ts).length =
        Except.ok (mkRat (Int.ofNat (completedCount (t :: ts))) (t :: ts).length) := by
      unfold pyDivNat
      rw [if_neg hne2]
    have hmath :
        pyRound1 (qMulNat 100 (mkRat (Int.ofNat (completedCount (t :: ts))) (t :: ts).length)) =
          pyRound1 ((completedCount (t :: ts) : ℚ) / ((t :: ts).length : ℚ) * 100) := by
      rw [qMulNat_eq, Rat.mkRat_eq_div]
      congr 1
      push_cast [Int.ofNat_eq_natCast]
      ring
    have hstat : stats now (t :: ts) =
        Except.ok
          { total := (t :: ts).length
            completed := completedCount (t :: ts)
            pending := ((t :: ts).filter (fun x => x.status == TaskStatus.pending)).length
            in_progress := ((t :: ts).filter (fun x => x.status == TaskStatus.in_progress)).length
            high_priority := ((t :: ts).filter isHighPriority).length
            overdue := ((t :: ts).filter (isOverdue now)).length
            completion_rate :=
              pyRound1
                (qMulNat 100 (mkRat (Int.ofNat (completedCount (t :: ts))) (t :: ts).length)) } := by
      unfold stats
      dsimp only
      rw [if_pos hlen, hdiv]
      rfl
    refine ⟨_, hstat, rfl, rfl, ?_, ?_, ?_⟩
    · intro h
      exact absurd h (by simp)
    · intro _
      rfl
    · intro _
      exact hmath

/-- C9 witness: the empty list gives rate 0; a single completed task gives
rate 100. -/
theorem stats_completion_rate_witness :
    (∃ r, stats 0 [] = Except.ok r ∧ r.completion_rate = 0) ∧
    (∃ r, stats 0 [completedTaskExample] = Except.ok r ∧ r.completion_rate = mkRat 100 1) := by
  constructor
  · obtain ⟨r, h1, _, _, h0, _, _⟩ := stats_completion_rate 0 []
    exact ⟨r, h1, h0 rfl⟩
  · obtain ⟨r, h1, _, _, _, hc, _⟩ := stats_completion_rate 0 [completedTaskExample]
    refine ⟨r, h1, ?_⟩
    rw [hc (by simp)]
    decide

end SmartTodo
